import Mathlib

/-!
Verification of the vitals-monitor subsystem of the Sewa health-companion app
(src/pages/VitalsMonitor.tsx), as a shallow embedding: the component state is a
structure, each handler and effect body is a state-transition function, and the
asynchronous alert generation is parametrised by the outcome of its single
external generation call.
-/

namespace Sewa

/-- `type ConnectionStatus` (VitalsMonitor.tsx:17). -/
inductive ConnectionStatus where
  | disconnected
  | connecting
  | connected
  | error
deriving DecidableEq, Repr

/-- The `bp` field of a reading (VitalsMonitor.tsx:21). -/
structure BloodPressure where
  systolic : Int
  diastolic : Int
deriving DecidableEq, Repr

/-- `interface Vitals` (VitalsMonitor.tsx:19-23). -/
structure Vitals where
  hr : Int
  bp : BloodPressure
  spo2 : Int
deriving DecidableEq, Repr

/-- `interface VitalsWithTimestamp extends Vitals` (VitalsMonitor.tsx:25-27). -/
structure VitalsWithTimestamp extends Vitals where
  timestamp : String
deriving DecidableEq, Repr

/-- `const MAX_HISTORY_LENGTH = 30` (VitalsMonitor.tsx:29). -/
def MAX_HISTORY_LENGTH : Nat := 30

/-- The initial / reset vitals value `{ hr: 0, bp: { systolic: 0, diastolic: 0 }, spo2: 0 }`
(VitalsMonitor.tsx:99 and 248). -/
def placeholderVitals : Vitals :=
  { hr := 0, bp := { systolic := 0, diastolic := 0 }, spo2 := 0 }

/-- `isCritical` (VitalsMonitor.tsx:134-137). -/
def isCritical (v : Vitals) : Bool :=
  if v.hr = 0 ∧ v.spo2 = 0 then false
  else decide (v.hr < 50 ∨ v.hr > 130 ∨ v.bp.systolic > 180 ∨
    v.bp.diastolic > 120 ∨ v.spo2 < 90)

/-- The documented critical ranges, written from the spec's words, to be compared
with `isCritical`: heart rate < 50 or > 130, systolic > 180, diastolic > 120, or
SpO2 < 90. -/
def specCriticalRanges (v : Vitals) : Prop :=
  v.hr < 50 ∨ v.hr > 130 ∨ v.bp.systolic > 180 ∨ v.bp.diastolic > 120 ∨ v.spo2 < 90

instance (v : Vitals) : Decidable (specCriticalRanges v) := by
  unfold specCriticalRanges
  exact inferInstance

/-- The history-append update passed to `setVitalsHistory` on a tick
(VitalsMonitor.tsx:217-222): append the entry, then if the length exceeds
`MAX_HISTORY_LENGTH` keep `slice (length - MAX_HISTORY_LENGTH)`, i.e. drop from
the front down to the cap. -/
def appendHistory {α : Type} (prevHistory : List α) (entry : α) : List α :=
  let updatedHistory := prevHistory ++ [entry]
  if updatedHistory.length > MAX_HISTORY_LENGTH then
    updatedHistory.drop (updatedHistory.length - MAX_HISTORY_LENGTH)
  else
    updatedHistory

/-- The chart zoom domain: `['dataMin', 'dataMax']` (the full range) or a pair of
timestamps selected by dragging (VitalsMonitor.tsx:105, 120). -/
inductive ZoomDomain where
  | full
  | range (left right : String)
deriving DecidableEq, Repr

/-- The component state of `VitalsMonitor` (VitalsMonitor.tsx:98-110): the
`useState` hooks plus the `autoAlertSentRef` ref.  The drag-selection state
(`refAreaLeft`/`refAreaRight`) and the interval handle are irrelevant to the
claims and omitted. -/
structure MonitorState where
  connectionStatus : ConnectionStatus
  vitals : Vitals
  vitalsHistory : List VitalsWithTimestamp
  isSendingAlert : Bool
  alertMessage : Option String
  zoomDomain : ZoomDomain
  autoAlertSent : Bool
deriving DecidableEq, Repr

/-- Modelled from the spec: the translation function `t` from src/lib/i18n, which
is not among the sources.  The spec only says that a failure surfaces "a static
localized error string", so each key is mapped to itself as its fixed localized
string; only the identity of the string matters to the claims. -/
def t (key : String) : String := key

/-- The outcome of the single external `ai.models.generateContent` call inside
`generateAndSendAlert` (VitalsMonitor.tsx:184-187): the awaited promise either
resolves with the generated text or rejects. -/
inductive GenOutcome where
  | success (text : String)
  | failure
deriving DecidableEq, Repr

/-- `generateAndSendAlert` (VitalsMonitor.tsx:145-199), run to completion with
the given outcome of its one external generation call.  Returns the new state
together with the number of external generation calls the invocation performed
(the body contains exactly one un-looped `await`, so this is 0 when the
in-flight guard returns early and 1 otherwise).  The system-notification block
(lines 152-176) only calls browser APIs and changes no component state. -/
def generateAndSendAlert (s : MonitorState) (isManual : Bool) (outcome : GenOutcome) :
    MonitorState × Nat :=
  if s.isSendingAlert then (s, 0)
  else
    let s₁ : MonitorState :=
      { s with isSendingAlert := true,
               alertMessage := if isManual then none else s.alertMessage }
    match outcome with
    | .success text =>
        let s₂ := { s₁ with alertMessage := some text }
        let s₃ := if isManual then s₂ else { s₂ with autoAlertSent := true }
        ({ s₃ with isSendingAlert := false }, 1)
    | .failure =>
        ({ s₁ with alertMessage := some (t "alertGenerationError"),
                   isSendingAlert := false }, 1)

/-- The trigger condition of the auto-alert effect (VitalsMonitor.tsx:238). -/
def autoAlertFires (s : MonitorState) : Bool :=
  decide (s.connectionStatus = ConnectionStatus.connected ∧ isCritical s.vitals = true ∧
    s.autoAlertSent = false ∧ s.isSendingAlert = false)

/-- The auto-alert effect (VitalsMonitor.tsx:237-241): when the trigger condition
holds, run `generateAndSendAlert(vitals, false)` to completion with the given
outcome; otherwise do nothing. -/
def autoAlertStep (s : MonitorState) (outcome : GenOutcome) : MonitorState :=
  if autoAlertFires s then (generateAndSendAlert s false outcome).1 else s

/-- `resetZoom` (VitalsMonitor.tsx:129-131). -/
def resetZoom (s : MonitorState) : MonitorState :=
  { s with zoomDomain := ZoomDomain.full }

/-- `handleConnect` (VitalsMonitor.tsx:244-254), up to the `setTimeout`: status
becomes `connecting`, the alert message, sent-flag, vitals, history and zoom
domain are reset. -/
def handleConnect (s : MonitorState) : MonitorState :=
  resetZoom { s with
    connectionStatus := ConnectionStatus.connecting,
    alertMessage := none,
    autoAlertSent := false,
    vitals := placeholderVitals,
    vitalsHistory := [] }

/-- The `setTimeout` callback inside `handleConnect` (VitalsMonitor.tsx:251-253). -/
def connectTimeoutFires (s : MonitorState) : MonitorState :=
  { s with connectionStatus := ConnectionStatus.connected }

/-- `handleDisconnect` (VitalsMonitor.tsx:256-258): it only sets the connection
status; no other field is touched. -/
def handleDisconnect (s : MonitorState) : MonitorState :=
  { s with connectionStatus := ConnectionStatus.disconnected }

/-- The reading synthesized by the interval tick (VitalsMonitor.tsx:205-209).
`Math.floor (Math.random () * n)` with `Math.random ()` in `[0, 1)` is an
integer uniform in `[0, n - 1]`; each of the four independent draws is modelled
as `r % n` for an arbitrary natural `r`. -/
def simulatedVitals (r₁ r₂ r₃ r₄ : Nat) : Vitals :=
  { hr := ((r₁ % (140 - 45 + 1) : Nat) : Int) + 45,
    bp := { systolic := ((r₂ % (190 - 85 + 1) : Nat) : Int) + 85,
            diastolic := ((r₃ % (130 - 55 + 1) : Nat) : Int) + 55 },
    spo2 := ((r₄ % (100 - 88 + 1) : Nat) : Int) + 88 }

/-- The whole interval tick (VitalsMonitor.tsx:204-224): synthesize a reading,
store it as the current vitals, and append it with the current time to the
bounded history. -/
def monitorTick (s : MonitorState) (r₁ r₂ r₃ r₄ : Nat) (now : String) : MonitorState :=
  let newVitals := simulatedVitals r₁ r₂ r₃ r₄
  { s with vitals := newVitals,
           vitalsHistory := appendHistory s.vitalsHistory ⟨newVitals, now⟩ }

/-! Concrete sample values used by witnesses and counterexamples. -/

/-- A reading that is zero in heart rate and SpO2 but not in blood pressure. -/
def mixedZeroVitals : Vitals :=
  { hr := 0, bp := { systolic := 200, diastolic := 0 }, spo2 := 0 }

/-- A timestamped placeholder entry. -/
def sampleEntry₀ : VitalsWithTimestamp := ⟨placeholderVitals, "00:00"⟩

/-- A timestamped normal reading. -/
def sampleEntry₁ : VitalsWithTimestamp := ⟨⟨70, ⟨120, 80⟩, 97⟩, "00:02"⟩

/-- A history already at the 30-entry cap. -/
def fullHistory : List VitalsWithTimestamp := List.replicate 30 sampleEntry₀

/-- A connected session whose current reading is critical (heart rate 160),
with the sent-flag and in-flight flag clear. -/
def criticalState : MonitorState :=
  { connectionStatus := ConnectionStatus.connected,
    vitals := ⟨160, ⟨120, 80⟩, 95⟩,
    vitalsHistory := [],
    isSendingAlert := false,
    alertMessage := none,
    zoomDomain := ZoomDomain.full,
    autoAlertSent := true }

/-- Like `criticalState` but with the auto-alert sent-flag still clear. -/
def firingState : MonitorState := { criticalState with autoAlertSent := false }

/-- Like `criticalState` but with an alert generation in flight. -/
def sendingState : MonitorState := { criticalState with isSendingAlert := true }

/-- A connected session with a non-empty vitals history. -/
def busyState : MonitorState := { firingState with vitalsHistory := [sampleEntry₁] }

/-! Claim C1: the critical-state classifier versus the documented ranges. -/

/-- C1 fails as stated: `mixedZeroVitals` is not the all-zero placeholder and its
systolic pressure 200 exceeds the documented threshold 180, yet `isCritical`
returns `false`, because the placeholder guard tests only `hr = 0 ∧ spo2 = 0`. -/
theorem C1_counterexample :
    mixedZeroVitals ≠ placeholderVitals ∧ specCriticalRanges mixedZeroVitals ∧
    isCritical mixedZeroVitals = false := by decide

/-- C1 amended: for every reading whose heart rate and SpO2 are not both zero,
`isCritical` is `true` exactly when the reading is in the documented critical
ranges; every reading with heart rate 0 and SpO2 0 (in particular the all-zero
placeholder) is classified as not critical. -/
theorem C1_amended (v : Vitals) :
    (¬ (v.hr = 0 ∧ v.spo2 = 0) → (isCritical v = true ↔ specCriticalRanges v)) ∧
    ((v.hr = 0 ∧ v.spo2 = 0) → isCritical v = false) := by
  constructor
  · intro hv
    rw [isCritical, if_neg hv]
    simp [specCriticalRanges]
  · intro hv
    rw [isCritical, if_pos hv]

/-- C1 witness: `C1_amended` evaluated at a bradycardic reading and at the
placeholder. -/
theorem C1_witness :
    (isCritical { hr := 40, bp := { systolic := 120, diastolic := 80 }, spo2 := 98 } = true ↔
      specCriticalRanges { hr := 40, bp := { systolic := 120, diastolic := 80 }, spo2 := 98 }) ∧
    isCritical placeholderVitals = false :=
  ⟨(C1_amended { hr := 40, bp := { systolic := 120, diastolic := 80 }, spo2 := 98 }).1
      (by decide),
    (C1_amended placeholderVitals).2 (by decide)⟩

/-! Claim C2: bounded history append with oldest-first eviction. -/

/-- C2: appending to a history of length at most 30 keeps the length at most 30,
puts the new entry last, keeps a contiguous suffix of the old list followed by
the new entry, and when the old list had exactly 30 entries evicts exactly the
oldest one. -/
theorem C2_historyBound (prevHistory : List VitalsWithTimestamp) (entry : VitalsWithTimestamp)
    (h : prevHistory.length ≤ MAX_HISTORY_LENGTH) :
    (appendHistory prevHistory entry).length ≤ MAX_HISTORY_LENGTH ∧
    (appendHistory prevHistory entry).getLast? = some entry ∧
    (∃ k, appendHistory prevHistory entry = prevHistory.drop k ++ [entry]) ∧
    (prevHistory.length = MAX_HISTORY_LENGTH →
      appendHistory prevHistory entry = prevHistory.drop 1 ++ [entry]) := by
  unfold MAX_HISTORY_LENGTH at *
  rcases Nat.lt_or_ge prevHistory.length 30 with hlt | hge
  · have heq : appendHistory prevHistory entry = prevHistory ++ [entry] := by
      simp only [appendHistory, MAX_HISTORY_LENGTH]
      rw [if_neg]
      simp only [List.length_append, List.length_cons, List.length_nil]
      omega
    refine ⟨?_, ?_, ⟨0, by simp [heq]⟩, fun h30 => absurd h30 (by omega)⟩
    · rw [heq]; simp; omega
    · rw [heq]; exact List.getLast?_concat _
  · have h30 : prevHistory.length = 30 := le_antisymm h hge
    have heq : appendHistory prevHistory entry = prevHistory.drop 1 ++ [entry] := by
      simp only [appendHistory, MAX_HISTORY_LENGTH]
      rw [if_pos]
      · have hn : (prevHistory ++ [entry]).length - 30 = 1 := by simp [h30]
        rw [hn, List.drop_append_eq_append_drop]
        simp [h30]
      · simp [h30]
    refine ⟨?_, ?_, ⟨1, heq⟩, fun _ => heq⟩
    · rw [heq]; simp [h30]
    · rw [heq]; exact List.getLast?_concat _

/-- C2 witness: `C2_historyBound` evaluated at a history already holding 30
entries. -/
theorem C2_witness :
    (appendHistory fullHistory sampleEntry₁).length ≤ MAX_HISTORY_LENGTH ∧
    (appendHistory fullHistory sampleEntry₁).getLast? = some sampleEntry₁ ∧
    (∃ k, appendHistory fullHistory sampleEntry₁ = fullHistory.drop k ++ [sampleEntry₁]) ∧
    (fullHistory.length = MAX_HISTORY_LENGTH →
      appendHistory fullHistory sampleEntry₁ = fullHistory.drop 1 ++ [sampleEntry₁]) :=
  C2_historyBound fullHistory sampleEntry₁ (by decide)

/-! Claim C3: what disconnect does to the vitals history. -/

/-- C3 fails as stated: `handleDisconnect` only sets the connection status, so
from a session with a non-empty history the history is still non-empty after
disconnecting. -/
theorem C3_counterexample :
    busyState.vitalsHistory ≠ [] ∧
    handleDisconnect busyState =
      { busyState with connectionStatus := ConnectionStatus.disconnected } ∧
    (handleDisconnect busyState).vitalsHistory ≠ [] := by decide

/-- C3 amended: `handleDisconnect` leaves the vitals history unchanged and only
sets the status to disconnected; the history is emptied by `handleConnect` at
the start of the next session, so its lifetime runs from one connect to the
next connect. -/
theorem C3_amended (s : MonitorState) :
    (handleDisconnect s).vitalsHistory = s.vitalsHistory ∧
    (handleDisconnect s).connectionStatus = ConnectionStatus.disconnected ∧
    (handleConnect s).vitalsHistory = [] :=
  ⟨rfl, rfl, rfl⟩

/-! Claim C4: at most one automatic alert per connected session. -/

/-- C4 fails as stated: the sent-flag is set only when the generation call
succeeds, so in a session whose first automatic generation fails the trigger
condition holds again afterwards and a second automatic generation is
initiated on the next critical reading. -/
theorem C4_counterexample :
    autoAlertFires firingState = true ∧
    autoAlertFires (autoAlertStep firingState GenOutcome.failure) = true := by decide

/-- C4 amended: once the sent-flag is set, the auto-alert effect never fires
again in the session (the step is the identity), and a successful automatic
generation sets the flag; only a failed automatic generation leaves the flag
clear and can therefore be re-initiated by a later critical reading. -/
theorem C4_amended (s : MonitorState) (o : GenOutcome) (text : String) :
    (s.autoAlertSent = true → autoAlertStep s o = s) ∧
    (autoAlertFires s = true →
      (autoAlertStep s (GenOutcome.success text)).autoAlertSent = true) := by
  constructor
  · intro hsent
    rw [autoAlertStep, if_neg]
    simp [autoAlertFires, hsent]
  · intro hfire
    rw [autoAlertFires] at hfire
    have hp := of_decide_eq_true hfire
    have hns : s.isSendingAlert = false := hp.2.2.2
    rw [autoAlertStep] at *
    simp only [autoAlertFires, decide_eq_true_eq, hp, if_true]
    simp [generateAndSendAlert, hns]

/-- C4 witness: `C4_amended` evaluated at a state with the flag already set
(failure outcome) and at a firing state with a successful outcome. -/
theorem C4_witness :
    autoAlertStep criticalState GenOutcome.failure = criticalState ∧
    (autoAlertStep firingState (GenOutcome.success "check on Alex")).autoAlertSent = true :=
  ⟨(C4_amended criticalState GenOutcome.failure "x").1 (by decide),
    (C4_amended firingState GenOutcome.failure "check on Alex").2 (by decide)⟩

/-! Claim C5: the in-flight guard. -/

/-- C5: while `isSendingAlert` is true, any invocation of
`generateAndSendAlert` — manual or automatic, whatever the outcome would be —
returns the state unchanged and performs zero external generation calls, so a
second generation is never started while one is in flight. -/
theorem C5_inFlightGuard (s : MonitorState) (isManual : Bool) (o : GenOutcome)
    (h : s.isSendingAlert = true) :
    generateAndSendAlert s isManual o = (s, 0) := by
  simp [generateAndSendAlert, h]

/-- C5 witness: `C5_inFlightGuard` evaluated at a state with a generation in
flight. -/
theorem C5_witness :
    generateAndSendAlert sendingState true GenOutcome.failure = (sendingState, 0) :=
  C5_inFlightGuard sendingState true GenOutcome.failure (by decide)

/-! Claim C6: the failure path of alert generation. -/

/-- C6: when the external generation call fails, the invocation ends with the
alert message equal to the static localized `alertGenerationError` string and
has performed exactly one external call — the failed call is not retried
within the invocation. -/
theorem C6_failureSurfacesError (s : MonitorState) (isManual : Bool)
    (h : s.isSendingAlert = false) :
    (generateAndSendAlert s isManual GenOutcome.failure).1.alertMessage =
      some (t "alertGenerationError") ∧
    (generateAndSendAlert s isManual GenOutcome.failure).2 = 1 := by
  simp [generateAndSendAlert, h]

/-- C6 witness: `C6_failureSurfacesError` evaluated at a firing critical state
with an automatic trigger. -/
theorem C6_witness :
    (generateAndSendAlert firingState false GenOutcome.failure).1.alertMessage =
      some (t "alertGenerationError") ∧
    (generateAndSendAlert firingState false GenOutcome.failure).2 = 1 :=
  C6_failureSurfacesError firingState false (by decide)

/-! Claim C7: the telemetry simulator's output ranges. -/

/-- C7: every reading the simulator tick synthesizes has integer heart rate in
[45, 140], systolic in [85, 190], diastolic in [55, 130] and SpO2 in [88, 100],
for any values of the four random draws; the tick is a total function with no
error outcome. -/
theorem C7_simulatorRanges (r₁ r₂ r₃ r₄ : Nat) :
    45 ≤ (simulatedVitals r₁ r₂ r₃ r₄).hr ∧ (simulatedVitals r₁ r₂ r₃ r₄).hr ≤ 140 ∧
    85 ≤ (simulatedVitals r₁ r₂ r₃ r₄).bp.systolic ∧
    (simulatedVitals r₁ r₂ r₃ r₄).bp.systolic ≤ 190 ∧
    55 ≤ (simulatedVitals r₁ r₂ r₃ r₄).bp.diastolic ∧
    (simulatedVitals r₁ r₂ r₃ r₄).bp.diastolic ≤ 130 ∧
    88 ≤ (simulatedVitals r₁ r₂ r₃ r₄).spo2 ∧ (simulatedVitals r₁ r₂ r₃ r₄).spo2 ≤ 100 := by
  have h₁ := Nat.mod_lt r₁ (show 0 < 140 - 45 + 1 by norm_num)
  have h₂ := Nat.mod_lt r₂ (show 0 < 190 - 85 + 1 by norm_num)
  have h₃ := Nat.mod_lt r₃ (show 0 < 130 - 55 + 1 by norm_num)
  have h₄ := Nat.mod_lt r₄ (show 0 < 100 - 88 + 1 by norm_num)
  simp only [simulatedVitals]
  omega

/-! Claim C8: the critical-state detector is pure and deterministic. -/

/-- C8: `isCritical` depends only on the four numeric components of the
reading — two evaluations on readings that agree componentwise return the
same boolean — and, being a pure function of the reading in this embedding,
its evaluation changes no state. -/
theorem C8_detectorDeterministic (v₁ v₂ : Vitals)
    (h₁ : v₁.hr = v₂.hr) (h₂ : v₁.bp.systolic = v₂.bp.systolic)
    (h₃ : v₁.bp.diastolic = v₂.bp.diastolic) (h₄ : v₁.spo2 = v₂.spo2) :
    isCritical v₁ = isCritical v₂ := by
  have hv : v₁ = v₂ := by
    obtain ⟨a₁, ⟨b₁, c₁⟩, d₁⟩ := v₁
    obtain ⟨a₂, ⟨b₂, c₂⟩, d₂⟩ := v₂
    simp_all
  rw [hv]

/-- C8 witness: `C8_detectorDeterministic` evaluated at a normal reading. -/
theorem C8_witness :
    isCritical { hr := 72, bp := { systolic := 118, diastolic := 76 }, spo2 := 98 } =
      isCritical { hr := 72, bp := { systolic := 118, diastolic := 76 }, spo2 := 98 } :=
  C8_detectorDeterministic _ _ rfl rfl rfl rfl

/-! Claim C9: connect starts from a clean state. -/

/-- C9: from every prior state, `handleConnect` clears the alert message,
resets the auto-alert sent-flag, sets the current vitals to the all-zero
placeholder, empties the vitals history, resets the zoom domain to the full
range, and puts the status into `connecting`. -/
theorem C9_connectStartsClean (s : MonitorState) :
    (handleConnect s).alertMessage = none ∧
    (handleConnect s).autoAlertSent = false ∧
    (handleConnect s).vitals = placeholderVitals ∧
    (handleConnect s).vitalsHistory = [] ∧
    (handleConnect s).zoomDomain = ZoomDomain.full ∧
    (handleConnect s).connectionStatus = ConnectionStatus.connecting :=
  ⟨rfl, rfl, rfl, rfl, rfl, rfl⟩

/-! Claim C10: the in-flight flag is always released. -/

/-- C10: every invocation of `generateAndSendAlert` that actually starts a
generation (the in-flight flag was clear) ends with the in-flight flag clear
again, on the success path and on the failure path alike, so the guard can
never block future alerts permanently. -/
theorem C10_inFlightFlagCleared (s : MonitorState) (isManual : Bool) (o : GenOutcome)
    (h : s.isSendingAlert = false) :
    (generateAndSendAlert s isManual o).1.isSendingAlert = false := by
  cases o <;> cases isManual <;> simp [generateAndSendAlert, h]

/-- C10 witness: `C10_inFlightFlagCleared` evaluated at a manual success. -/
theorem C10_witness :
    (generateAndSendAlert busyState true (GenOutcome.success "ok")).1.isSendingAlert = false :=
  C10_inFlightFlagCleared busyState true (GenOutcome.success "ok") (by decide)

end Sewa
